import Mathlib

/-!
Verification of the record-submission pipeline in `app.py`
(`Fonsecach/enviar-request`).

The Python program reads spreadsheet rows, builds a JSON payload per row
(`prepare_payload`, app.py:51-67), POSTs it with bounded retries
(`make_request`, app.py:69-92), and appends one log line per outcome
(`log_result`, app.py:40-49), orchestrated by `main` (app.py:93-154) which
polls a cancellation flag between rows (`GracefulExit`, app.py:10-18).

Shallow embedding choices:
* a spreadsheet cell is a string, an integer, or the pandas missing marker
  NaN (`Cell`); a row is an association list of column name to cell;
* Python `str`, `int` coercions and `str.split(",")` are modelled by
  structurally recursive functions faithful to their behaviour on the
  decimal/ASCII values this program handles;
* the HTTP transport is an oracle mapping the attempt number to either a
  received response, a timeout, or a non-timeout request exception, so a
  run of `make_request` is a pure fold over `range max_retries` mirroring
  the Python loop, producing the list of observable events (POST calls and
  sleeps) plus the returned/raised result;
* file writes are modelled by returning the exact line text that
  `log_result` appends; the driver produces the chronological list of
  per-record trace entries, from which the success/failure log contents
  are derived;
* the cancellation flag is a function from record index to the flag value
  observed at that record's loop-boundary check.
-/

namespace EnviarRequest

/-- A spreadsheet cell as seen by `prepare_payload`: a string, an integer,
or the pandas missing-value marker (NaN). -/
inductive Cell where
  | str (s : String)
  | int (n : Int)
  | nan
deriving DecidableEq

/-- One spreadsheet row: association list of column name to cell value.
`row.lookup c` is `none` exactly when column `c` is absent (Python
`row[c]` raises `KeyError`). -/
abbrev RawRecord := List (String × Cell)

/-- Python `str(x)` on a cell value. `str` of NaN prints as `nan`. -/
def pyStr : Cell → String
  | .str s => s
  | .int n => toString n
  | .nan => "nan"

/-- Accumulate decimal digits; `none` when a non-digit occurs or when the
accumulator never received a digit (Python `int("")` raises). -/
def digitsVal : List Char → Option Nat → Option Nat
  | [], acc => acc
  | c :: cs, acc =>
    if c.isDigit then
      digitsVal cs (some ((acc.getD 0) * 10 + (c.toNat - 48)))
    else
      none

/-- Python `int(s)` on the plain decimal string forms this program meets:
optional sign followed by decimal digits; anything else raises
(`ValueError`), modelled as `none`. -/
def pyParseInt (s : String) : Option Int :=
  match s.data with
  | '-' :: rest => (digitsVal rest none).map fun n => -(n : Int)
  | '+' :: rest => (digitsVal rest none).map fun n => (n : Int)
  | l => (digitsVal l none).map fun n => (n : Int)

/-- Python `int(x)` on a cell: identity on integers, decimal parse on
strings, and a `ValueError` (modelled `none`) on NaN. -/
def pyInt : Cell → Option Int
  | .int n => some n
  | .str s => pyParseInt s
  | .nan => none

/-- `pd.notna(x)`: false exactly on the missing marker. -/
def pyNotna : Cell → Bool
  | .nan => false
  | _ => true

/-- Python `s.split(",")` over the character list: always one part more
than the number of commas, so `"".split(",") == [""]`. -/
def splitOnCommaAux : List Char → List Char → List String
  | [], acc => [String.mk acc.reverse]
  | c :: cs, acc =>
    if c = ',' then String.mk acc.reverse :: splitOnCommaAux cs []
    else splitOnCommaAux cs (c :: acc)

/-- Python `s.split(",")`. -/
def pySplitComma (s : String) : List String :=
  splitOnCommaAux s.data []

/-- The normalized submission payload built by `prepare_payload`
(app.py:56-64). -/
structure Payload where
  name : String
  contact_name : String
  x_studio_tese : String
  user_id : Int
  team_id : Int
  tag_ids : List String
  stage_id : Int
deriving DecidableEq

/-- app.py:62: `row['tag_ids'].split(',') if isinstance(row['tag_ids'], str)
else []`. -/
def tagIdsOfCell : Cell → List String
  | .str s => pySplitComma s
  | _ => []

/-- Spec-side rule for C7 as amended: `tag_ids` is the comma-split of the
cell exactly when the cell holds a string — the empty string included,
splitting to the one-element sequence containing the empty string — and
the empty sequence when the cell is not a string. Kept separate from the
source-side `tagIdsOfCell` so the two can be compared. -/
def specTagIdsRule : Cell → List String
  | Cell.str s => pySplitComma s
  | _ => []

/-- `prepare_payload` (app.py:51-67): builds the payload dict; any failure
(missing column, non-numeric value, NaN where an int is required) is caught
by the `except Exception` at app.py:65, printed to the console, and turned
into `None`. Column lookups and coercions are in the source's evaluation
order; since every failure collapses to `none`, grouping them is
behaviour-preserving. -/
def prepare_payload (row : RawRecord) : Option Payload :=
  match row.lookup "Name", row.lookup "Company Name", row.lookup "x_studio_tese",
        row.lookup "user_id", row.lookup "team_id", row.lookup "tag_ids",
        row.lookup "stage_id" with
  | some cName, some cCompany, some cTese, some cUser, some cTeam, some cTags,
    some cStage =>
    match pyInt cUser, pyInt cTeam,
          (if pyNotna cStage then pyInt cStage else some 10) with
    | some nUser, some nTeam, some nStage =>
      some { name := pyStr cName, contact_name := pyStr cCompany,
             x_studio_tese := pyStr cTese, user_id := nUser, team_id := nTeam,
             tag_ids := tagIdsOfCell cTags, stage_id := nStage }
    | _, _, _ => none
  | _, _, _, _, _, _, _ => none

/-- An HTTP response; only the status code is observed by this program. -/
structure Response where
  status_code : Nat
deriving DecidableEq

/-- What one POST attempt yields: a received response, a
`requests.exceptions.Timeout`, or another `requests.exceptions.RequestException`
carrying its message. -/
inductive AttemptResult where
  | resp (r : Response)
  | timeout
  | reqError (msg : String)
deriving DecidableEq

/-- The exception `make_request` re-raises after its last attempt. -/
inductive ReqError where
  | timeout
  | reqExc (msg : String)
deriving DecidableEq

/-- Observable side effects of `make_request`: POST calls and the
`time.sleep(1)` backoff (app.py:86, app.py:91). -/
inductive Event where
  | post
  | sleep (units : Nat)
deriving DecidableEq

def isPost : Event → Bool
  | .post => true
  | _ => false

/-- Number of POST calls in an event list. -/
def countPosts (es : List Event) : Nat :=
  es.countP isPost

/-- Result of a `make_request` call: its events, and either the raised
exception or the returned value (`none` models Python falling off the loop
and returning `None`, possible only when the attempt range is empty). -/
structure SubmitTrace where
  events : List Event
  result : Except ReqError (Option Response)

/-- The body of `for attempt in range(max_retries)` (app.py:73-91): a
response returns immediately; a timeout or request exception re-raises on
the last attempt (`attempt == max_retries - 1`) and otherwise sleeps one
unit and continues with the next attempt. -/
def mrLoop (transport : Nat → AttemptResult) (max_retries : Nat) :
    List Nat → SubmitTrace
  | [] => { events := [], result := .ok none }
  | a :: rest =>
    match transport a with
    | .resp r => { events := [.post], result := .ok (some r) }
    | .timeout =>
      if a = max_retries - 1 then
        { events := [.post], result := .error .timeout }
      else
        let t := mrLoop transport max_retries rest
        { events := .post :: .sleep 1 :: t.events, result := t.result }
    | .reqError m =>
      if a = max_retries - 1 then
        { events := [.post], result := .error (.reqExc m) }
      else
        let t := mrLoop transport max_retries rest
        { events := .post :: .sleep 1 :: t.events, result := t.result }

/-- `make_request` (app.py:69-92): the retry loop over
`range(max_retries)`, default `max_retries = 3`. -/
def make_request (transport : Nat → AttemptResult) (max_retries : Nat := 3) :
    SubmitTrace :=
  mrLoop transport max_retries (List.range max_retries)

/-- Truthiness of the `response` argument in `log_result` (app.py:46):
`None` is falsy; a `requests.Response` is truthy iff `status_code < 400`. -/
def respTruthy : Option Response → Bool
  | none => false
  | some r => r.status_code < 400

/-- JSON string escaping as `json.dumps` performs it on the ASCII data this
program handles (quote and backslash). -/
def jsonEscChar (c : Char) : String
  := if c = '"' then "\\\"" else if c = '\\' then "\\\\" else String.mk [c]

def jsonStr (s : String) : String :=
  "\"" ++ String.join (s.data.map jsonEscChar) ++ "\""

def jsonStrList (xs : List String) : String :=
  "[" ++ String.intercalate ", " (xs.map jsonStr) ++ "]"

/-- `json.dumps(payload)` with the dict's insertion order and default
separators (app.py:56-64 fixes the key order). -/
def payloadJson (p : Payload) : String :=
  "\x7b\"name\": " ++ jsonStr p.name
    ++ ", \"contact_name\": " ++ jsonStr p.contact_name
    ++ ", \"x_studio_tese\": " ++ jsonStr p.x_studio_tese
    ++ ", \"user_id\": " ++ toString p.user_id
    ++ ", \"team_id\": " ++ toString p.team_id
    ++ ", \"tag_ids\": " ++ jsonStrList p.tag_ids
    ++ ", \"stage_id\": " ++ toString p.stage_id ++ "\x7d"

/-- Python `str(error)` for the `error` keyword argument (`str(None)` is
`"None"`). -/
def pyStrOfOptErr : Option String → String
  | some e => e
  | none => "None"

/-- `str(response.status_code)` in the truthy branch. -/
def statusCodeStr : Option Response → String
  | some r => toString r.status_code
  | none => "None"

/-- `log_result` (app.py:40-49): the exact line appended to the chosen log
file (which file receives it is the caller's choice of `file_path`). -/
def log_result (ts : String) (data : Payload) (response : Option Response)
    (error : Option String) : String :=
  if respTruthy response then
    "[" ++ ts ++ "] Sucesso - Dados: " ++ payloadJson data ++ " - Status: "
      ++ statusCodeStr response ++ "\n"
  else
    "[" ++ ts ++ "] Falha - Dados: " ++ payloadJson data ++ " - Erro: "
      ++ pyStrOfOptErr error ++ "\n"

/-- Where the loop body of `main` sends output for one record: no line at
all (build failed, app.py:124-125 `continue`), one line to the success
file, or one line to the failure file. -/
inductive RecordLog where
  | skip
  | success (line : String)
  | failure (line : String)
deriving DecidableEq

/-- Number of log lines a `RecordLog` contributes. -/
def linesOf : RecordLog → Nat
  | .skip => 0
  | .success _ => 1
  | .failure _ => 1

/-- Message of the `AttributeError` raised by `response.status_code` when
`make_request` returned `None` (caught by `except Exception`,
app.py:149-152). -/
def noneStatusCodeMsg : String :=
  "Erro inesperado: \x27NoneType\x27 object has no attribute \x27status_code\x27"

/-- The loop body of `main` for one record (app.py:121-152): build the
payload (skip silently when that fails), call `make_request`, then classify:
status in (200, 201) logs a success line; any other received status logs a
failure line with `Status code: <code>`; a raised timeout logs
`Timeout na requisição`; another request exception logs
`Erro na requisição: <msg>`; dereferencing a `None` return raises
`AttributeError`, caught by the generic handler which logs
`Erro inesperado: <msg>`. -/
def processRecord (transport : Nat → AttemptResult) (max_retries : Nat)
    (ts : String) (row : RawRecord) : List Event × RecordLog :=
  match prepare_payload row with
  | none => ([], .skip)
  | some payload =>
    let tr := make_request transport max_retries
    match tr.result with
    | .ok (some r) =>
      if r.status_code = 200 ∨ r.status_code = 201 then
        (tr.events, .success (log_result ts payload (some r) none))
      else
        (tr.events, .failure (log_result ts payload none
          (some ("Status code: " ++ toString r.status_code))))
    | .ok none =>
      (tr.events, .failure (log_result ts payload none (some noneStatusCodeMsg)))
    | .error .timeout =>
      (tr.events, .failure (log_result ts payload none
        (some "Timeout na requisição")))
    | .error (.reqExc m) =>
      (tr.events, .failure (log_result ts payload none
        (some ("Erro na requisição: " ++ m))))

/-- One processed record in a run: its source index, the raw row, the
submission events, and the log line it produced (if any). -/
structure TraceEntry where
  idx : Nat
  row : RawRecord
  events : List Event
  out : RecordLog
deriving DecidableEq

/-- The `for index, row in df.iterrows()` loop of `main` (app.py:114-152),
from record index `idx`. `kill i` is the value of `graceful_exit.kill_now`
observed at record i's boundary check (app.py:115); `env i` is the
transport behaviour seen by record i's submission. Records are processed
strictly in order; the loop breaks as soon as the flag reads true. -/
def runTraceAux (env : Nat → Nat → AttemptResult) (kill : Nat → Bool)
    (max_retries : Nat) (ts : String) : Nat → List RawRecord → List TraceEntry
  | _, [] => []
  | idx, row :: rest =>
    if kill idx then []
    else
      let pr := processRecord (env idx) max_retries ts row
      { idx := idx, row := row, events := pr.1, out := pr.2 }
        :: runTraceAux env kill max_retries ts (idx + 1) rest

/-- A whole run of `main`'s record loop from index 0. -/
def runTrace (env : Nat → Nat → AttemptResult) (kill : Nat → Bool)
    (max_retries : Nat) (ts : String) (rows : List RawRecord) :
    List TraceEntry :=
  runTraceAux env kill max_retries ts 0 rows

/-- Contents of the success log file after a run, in append order. -/
def successLines (t : List TraceEntry) : List String :=
  t.filterMap fun e =>
    match e.out with
    | .success l => some l
    | _ => none

/-- Contents of the failure log file after a run, in append order. -/
def failureLines (t : List TraceEntry) : List String :=
  t.filterMap fun e =>
    match e.out with
    | .failure l => some l
    | _ => none

/-- Total number of POST calls made during a run. -/
def totalPosts (t : List TraceEntry) : Nat :=
  (t.map fun e => countPosts e.events).sum

/-- A POST attempt that does not yield a response: it times out or raises a
request exception. -/
def failsAt (transport : Nat → AttemptResult) (a : Nat) : Prop :=
  transport a = .timeout ∨ ∃ m, transport a = .reqError m

/-- Concrete row from the spec's scenario: stage_id cell empty (NaN). -/
def acmeRow : RawRecord :=
  [("Name", .str "Acme"), ("Company Name", .str "Acme Inc"),
   ("x_studio_tese", .str "x"), ("user_id", .int 5), ("team_id", .int 2),
   ("tag_ids", .str "a,b"), ("stage_id", .nan)]

/-- The payload `prepare_payload` builds from `acmeRow`. -/
def acmePayload : Payload :=
  { name := "Acme", contact_name := "Acme Inc", x_studio_tese := "x",
    user_id := 5, team_id := 2, tag_ids := ["a", "b"], stage_id := 10 }

/-- A row whose build fails: the required `Name` column is absent, so
`row['Name']` raises `KeyError`. -/
def badRow : RawRecord :=
  [("Company Name", .str "Acme Inc"), ("x_studio_tese", .str "x"),
   ("user_id", .int 5), ("team_id", .int 2),
   ("tag_ids", .str "a,b"), ("stage_id", .nan)]

/-- A row whose `tag_ids` cell holds the empty string. -/
def emptyTagRow : RawRecord :=
  [("Name", .str "A"), ("Company Name", .str "B"),
   ("x_studio_tese", .str "C"), ("user_id", .int 1), ("team_id", .int 2),
   ("tag_ids", .str ""), ("stage_id", .nan)]

/-- Transport that always answers HTTP 201. -/
def envAll201 : Nat → Nat → AttemptResult :=
  fun _ _ => .resp { status_code := 201 }

/-- Single-record transport answering HTTP 201 on every attempt. -/
def transport201 : Nat → AttemptResult :=
  fun _ => .resp { status_code := 201 }

/-- Single-record transport answering HTTP 500 on every attempt. -/
def transport500 : Nat → AttemptResult :=
  fun _ => .resp { status_code := 500 }

/-- Single-record transport that always times out. -/
def transportTimeout : Nat → AttemptResult :=
  fun _ => .timeout

/-- Cancellation flag that never fires. -/
def killNever : Nat → Bool :=
  fun _ => false

/-- Cancellation flag observed true from the second record on. -/
def killAfterOne : Nat → Bool :=
  fun i => decide (1 ≤ i)

/-- The success-log line the Acme scenario produces. -/
def acmeSuccessLine : String :=
  log_result "t" acmePayload (some { status_code := 201 }) none

/-- The trace entry a one-record run on `acmeRow` against an all-201
endpoint produces. -/
def acmeEntry : TraceEntry :=
  { idx := 0, row := acmeRow, events := [Event.post],
    out := RecordLog.success acmeSuccessLine }

/-! Helper lemmas about the retry loop. -/

theorem countPosts_nil : countPosts [] = 0 := rfl

theorem countPosts_post_sleep (es : List Event) :
    countPosts (.post :: .sleep 1 :: es) = countPosts es + 1 := by
  simp [countPosts, List.countP_cons, isPost]

theorem mrLoop_cons_resp (transport : Nat → AttemptResult) (maxR a : Nat)
    (rest : List Nat) (r : Response) (ha : transport a = .resp r) :
    mrLoop transport maxR (a :: rest) =
      { events := [.post], result := .ok (some r) } := by
  simp [mrLoop, ha]

theorem mrLoop_cons_timeout_last (transport : Nat → AttemptResult)
    (maxR a : Nat) (rest : List Nat) (ha : transport a = .timeout)
    (hl : a = maxR - 1) :
    mrLoop transport maxR (a :: rest) =
      { events := [.post], result := .error .timeout } := by
  simp [mrLoop, ha, if_pos hl]

theorem mrLoop_cons_timeout_cont (transport : Nat → AttemptResult)
    (maxR a : Nat) (rest : List Nat) (ha : transport a = .timeout)
    (hl : a ≠ maxR - 1) :
    mrLoop transport maxR (a :: rest) =
      { events := .post :: .sleep 1 :: (mrLoop transport maxR rest).events,
        result := (mrLoop transport maxR rest).result } := by
  simp [mrLoop, ha, if_neg hl]

theorem mrLoop_cons_reqError_last (transport : Nat → AttemptResult)
    (maxR a : Nat) (rest : List Nat) (m : String)
    (ha : transport a = .reqError m) (hl : a = maxR - 1) :
    mrLoop transport maxR (a :: rest) =
      { events := [.post], result := .error (.reqExc m) } := by
  simp [mrLoop, ha, if_pos hl]

theorem mrLoop_cons_reqError_cont (transport : Nat → AttemptResult)
    (maxR a : Nat) (rest : List Nat) (m : String)
    (ha : transport a = .reqError m) (hl : a ≠ maxR - 1) :
    mrLoop transport maxR (a :: rest) =
      { events := .post :: .sleep 1 :: (mrLoop transport maxR rest).events,
        result := (mrLoop transport maxR rest).result } := by
  simp [mrLoop, ha, if_neg hl]

/-- If attempt `k` yields a response and every earlier attempt in scope
fails, the loop over `range' s n` (covering attempts `s ≤ k`) returns that
response after exactly `k - s + 1` POSTs. -/
theorem mrLoop_resp_at (transport : Nat → AttemptResult) (maxR k : Nat)
    (r : Response) (hk : k < maxR) (hr : transport k = .resp r) :
    ∀ (n : Nat) (s : Nat), s + n = maxR → s ≤ k →
      (∀ j, s ≤ j → j < k → failsAt transport j) →
      (mrLoop transport maxR (List.range' s n)).result = .ok (some r)
      ∧ countPosts (mrLoop transport maxR (List.range' s n)).events
          = k - s + 1 := by
  intro n
  induction n with
  | zero => intro s hs hsk _; omega
  | succ n ih =>
    intro s hs hsk hfail
    rw [List.range'_succ]
    rcases Nat.lt_or_ge s k with hlt | hge
    · have hf := hfail s (Nat.le_refl s) hlt
      have hne : s ≠ maxR - 1 := by omega
      have hrec := ih (s + 1) (by omega) (by omega)
        (fun j hj1 hj2 => hfail j (by omega) hj2)
      rcases hf with hto | ⟨m, hm⟩
      · rw [mrLoop_cons_timeout_cont transport maxR s _ hto hne]
        refine ⟨hrec.1, ?_⟩
        rw [countPosts_post_sleep, hrec.2]
        omega
      · rw [mrLoop_cons_reqError_cont transport maxR s _ m hm hne]
        refine ⟨hrec.1, ?_⟩
        rw [countPosts_post_sleep, hrec.2]
        omega
    · have hek : s = k := by omega
      subst hek
      rw [mrLoop_cons_resp transport maxR s _ r hr]
      refine ⟨rfl, ?_⟩
      simp [countPosts, List.countP_cons, isPost]

/-- When every attempt times out, the loop over `range' s n` (the last `n`
of the `maxR` attempts) performs POST, sleep 1, POST, sleep 1, ..., POST
and re-raises the final timeout. -/
theorem mrLoop_all_timeout (transport : Nat → AttemptResult) (maxR : Nat)
    (ht : ∀ j, transport j = .timeout) :
    ∀ (n : Nat) (s : Nat), 1 ≤ n → s + n = maxR →
      mrLoop transport maxR (List.range' s n) =
        { events := (List.replicate (n - 1) [Event.post, Event.sleep 1]).flatten
            ++ [Event.post],
          result := .error .timeout } := by
  intro n
  induction n with
  | zero => intro s h; omega
  | succ n ih =>
    intro s _ hs
    rw [List.range'_succ]
    match n with
    | 0 =>
      have hlast : s = maxR - 1 := by omega
      rw [mrLoop_cons_timeout_last transport maxR s _ (ht s) hlast]
      simp
    | Nat.succ m =>
      have hne : s ≠ maxR - 1 := by omega
      have hrec := ih (s + 1) (by omega) (by omega)
      rw [mrLoop_cons_timeout_cont transport maxR s _ (ht s) hne, hrec]
      simp [List.replicate_succ]

theorem countPosts_timeout_pattern :
    ∀ n : Nat,
      countPosts ((List.replicate n [Event.post, Event.sleep 1]).flatten
        ++ [Event.post]) = n + 1 := by
  intro n
  induction n with
  | zero => rfl
  | succ n ih =>
    simp only [List.replicate_succ, List.flatten_cons, List.append_assoc]
    simp only [countPosts, List.countP_append] at ih ⊢
    simp [List.countP_cons, isPost] at ih ⊢
    omega

/-! Helper lemmas about the per-record loop body. -/

theorem processRecord_build_none (transport : Nat → AttemptResult)
    (maxR : Nat) (ts : String) (row : RawRecord)
    (hp : prepare_payload row = none) :
    processRecord transport maxR ts row = ([], .skip) := by
  simp [processRecord, hp]

theorem linesOf_processRecord_some (transport : Nat → AttemptResult)
    (maxR : Nat) (ts : String) (row : RawRecord) (p : Payload)
    (hp : prepare_payload row = some p) :
    linesOf (processRecord transport maxR ts row).2 = 1 := by
  unfold processRecord
  rw [hp]
  dsimp only
  cases hres : (make_request transport maxR).result with
  | error e => cases e <;> simp [linesOf]
  | ok o =>
    cases o with
    | none => simp [linesOf]
    | some r =>
      by_cases hsc : r.status_code = 200 ∨ r.status_code = 201
      · simp [hsc, linesOf]
      · simp [hsc, linesOf]

theorem linesOf_processRecord_le (transport : Nat → AttemptResult)
    (maxR : Nat) (ts : String) (row : RawRecord) :
    linesOf (processRecord transport maxR ts row).2 ≤ 1 := by
  cases hp : prepare_payload row with
  | none => simp [processRecord_build_none transport maxR ts row hp, linesOf]
  | some p =>
    rw [linesOf_processRecord_some transport maxR ts row p hp]

/-- Unfolding of `processRecord` once the payload is known to build. -/
theorem processRecord_some (transport : Nat → AttemptResult) (maxR : Nat)
    (ts : String) (row : RawRecord) (p : Payload)
    (hp : prepare_payload row = some p) :
    processRecord transport maxR ts row =
      match (make_request transport maxR).result with
      | .ok (some r) =>
        if r.status_code = 200 ∨ r.status_code = 201 then
          ((make_request transport maxR).events,
            .success (log_result ts p (some r) none))
        else
          ((make_request transport maxR).events,
            .failure (log_result ts p none
              (some ("Status code: " ++ toString r.status_code))))
      | .ok none =>
        ((make_request transport maxR).events,
          .failure (log_result ts p none (some noneStatusCodeMsg)))
      | .error .timeout =>
        ((make_request transport maxR).events,
          .failure (log_result ts p none (some "Timeout na requisição")))
      | .error (.reqExc m) =>
        ((make_request transport maxR).events,
          .failure (log_result ts p none (some ("Erro na requisição: " ++ m)))) := by
  unfold processRecord
  rw [hp]

/-- The exact text of a success line. -/
theorem log_result_success_format (ts : String) (p : Payload) (r : Response)
    (h : respTruthy (some r) = true) :
    log_result ts p (some r) none =
      "[" ++ ts ++ "] Sucesso - Dados: " ++ payloadJson p ++ " - Status: "
        ++ toString r.status_code ++ "\n" := by
  simp [log_result, h, statusCodeStr]

/-- The exact text of a failure line. -/
theorem log_result_failure_format (ts : String) (p : Payload) (err : String) :
    log_result ts p none (some err) =
      "[" ++ ts ++ "] Falha - Dados: " ++ payloadJson p ++ " - Erro: "
        ++ err ++ "\n" := by
  simp [log_result, respTruthy, pyStrOfOptErr]

/-- Every line `processRecord` emits has the fixed shape with the
Portuguese tag `Sucesso` (success file) or `Falha` (failure file). -/
theorem processRecord_line_format (transport : Nat → AttemptResult)
    (maxR : Nat) (ts : String) (row : RawRecord) :
    (∀ l, (processRecord transport maxR ts row).2 = RecordLog.success l →
      ∃ p code, l = "[" ++ ts ++ "] Sucesso - Dados: " ++ payloadJson p
        ++ " - Status: " ++ toString (code : Nat) ++ "\n")
    ∧ (∀ l, (processRecord transport maxR ts row).2 = RecordLog.failure l →
      ∃ p d, l = "[" ++ ts ++ "] Falha - Dados: " ++ payloadJson p
        ++ " - Erro: " ++ d ++ "\n") := by
  cases hp : prepare_payload row with
  | none =>
    rw [processRecord_build_none transport maxR ts row hp]
    exact ⟨fun l hl => by simp at hl, fun l hl => by simp at hl⟩
  | some p =>
    rw [processRecord_some transport maxR ts row p hp]
    cases hres : (make_request transport maxR).result with
    | ok o =>
      cases o with
      | none =>
        constructor
        · intro l hl
          simp at hl
        · intro l hl
          simp at hl
          subst hl
          exact ⟨p, noneStatusCodeMsg,
            (log_result_failure_format ts p noneStatusCodeMsg).symm ▸ rfl⟩
      | some r =>
        dsimp only
        by_cases hsc : r.status_code = 200 ∨ r.status_code = 201
        · rw [if_pos hsc]
          constructor
          · intro l hl
            simp at hl
            subst hl
            refine ⟨p, r.status_code, ?_⟩
            exact log_result_success_format ts p r
              (by rcases hsc with h | h <;> simp [respTruthy, h])
          · intro l hl
            simp at hl
        · rw [if_neg hsc]
          constructor
          · intro l hl
            simp at hl
          · intro l hl
            simp at hl
            subst hl
            exact ⟨p, "Status code: " ++ toString r.status_code,
              log_result_failure_format ts p _⟩
    | error e =>
      cases e with
      | timeout =>
        constructor
        · intro l hl
          simp at hl
        · intro l hl
          simp at hl
          subst hl
          exact ⟨p, "Timeout na requisição", log_result_failure_format ts p _⟩
      | reqExc m =>
        constructor
        · intro l hl
          simp at hl
        · intro l hl
          simp at hl
          subst hl
          exact ⟨p, "Erro na requisição: " ++ m, log_result_failure_format ts p _⟩

/-! Helper lemmas about the driver loop. -/

theorem runTraceAux_map_idx (env : Nat → Nat → AttemptResult)
    (kill : Nat → Bool) (maxR : Nat) (ts : String) :
    ∀ (rows : List RawRecord) (idx : Nat),
      (runTraceAux env kill maxR ts idx rows).map TraceEntry.idx =
        List.range' idx (runTraceAux env kill maxR ts idx rows).length := by
  intro rows
  induction rows with
  | nil => intro idx; simp [runTraceAux]
  | cons row rest ih =>
    intro idx
    by_cases hk : kill idx
    · simp [runTraceAux, hk]
    · simp only [runTraceAux, if_neg hk, List.map_cons, List.length_cons,
        List.range'_succ]
      rw [ih (idx + 1)]

theorem runTraceAux_map_row (env : Nat → Nat → AttemptResult)
    (kill : Nat → Bool) (maxR : Nat) (ts : String) :
    ∀ (rows : List RawRecord) (idx : Nat),
      (runTraceAux env kill maxR ts idx rows).map TraceEntry.row =
        rows.take (runTraceAux env kill maxR ts idx rows).length := by
  intro rows
  induction rows with
  | nil => intro idx; simp [runTraceAux]
  | cons row rest ih =>
    intro idx
    by_cases hk : kill idx
    · simp [runTraceAux, hk]
    · simp only [runTraceAux, if_neg hk, List.map_cons, List.length_cons,
        List.take_succ_cons]
      rw [ih (idx + 1)]

theorem runTraceAux_length_le (env : Nat → Nat → AttemptResult)
    (kill : Nat → Bool) (maxR : Nat) (ts : String) :
    ∀ (rows : List RawRecord) (idx : Nat),
      (runTraceAux env kill maxR ts idx rows).length ≤ rows.length := by
  intro rows
  induction rows with
  | nil => intro idx; simp [runTraceAux]
  | cons row rest ih =>
    intro idx
    by_cases hk : kill idx
    · simp [runTraceAux, hk]
    · simp only [runTraceAux, if_neg hk, List.length_cons]
      exact Nat.succ_le_succ (ih (idx + 1))

theorem runTraceAux_mem (env : Nat → Nat → AttemptResult)
    (kill : Nat → Bool) (maxR : Nat) (ts : String) :
    ∀ (rows : List RawRecord) (idx : Nat) (e : TraceEntry),
      e ∈ runTraceAux env kill maxR ts idx rows →
        kill e.idx = false
        ∧ e.events = (processRecord (env e.idx) maxR ts e.row).1
        ∧ e.out = (processRecord (env e.idx) maxR ts e.row).2 := by
  intro rows
  induction rows with
  | nil => intro idx e he; simp [runTraceAux] at he
  | cons row rest ih =>
    intro idx e he
    by_cases hk : kill idx
    · simp [runTraceAux, hk] at he
    · simp only [runTraceAux, if_neg hk, List.mem_cons] at he
      rcases he with he | he
      · subst he
        exact ⟨by simpa using hk, rfl, rfl⟩
      · exact ih (idx + 1) e he

theorem runTraceAux_kill (env : Nat → Nat → AttemptResult)
    (kill : Nat → Bool) (maxR : Nat) (ts : String) :
    ∀ (rows : List RawRecord) (idx j : Nat), kill (idx + j) = true →
      (runTraceAux env kill maxR ts idx rows).length ≤ j := by
  intro rows
  induction rows with
  | nil => intro idx j _; simp [runTraceAux]
  | cons row rest ih =>
    intro idx j hj
    by_cases hk : kill idx
    · simp [runTraceAux, hk]
    · simp only [runTraceAux, if_neg hk, List.length_cons]
      match j with
      | 0 =>
        rw [Nat.add_zero] at hj
        exact absurd hj (by simpa using hk)
      | Nat.succ j =>
        have := ih (idx + 1) j (by rw [show idx + 1 + j = idx + (j + 1) by omega]; exact hj)
        omega

/-! The claims. -/

set_option maxRecDepth 20000

/-- Claim C1 counterexample: for `badRow` (missing `Name` column) the
payload build fails, yet the run appends NO failure line at all (the
record is skipped with only a console message), contradicting the claimed
"exactly one Failure line containing the build error description". Zero
POST calls are made, as claimed. -/
theorem build_failure_logs_nothing_cex :
    prepare_payload badRow = none
    ∧ failureLines (runTrace envAll201 killNever 3 "t" [badRow]) = []
    ∧ successLines (runTrace envAll201 killNever 3 "t" [badRow]) = []
    ∧ (failureLines (runTrace envAll201 killNever 3 "t" [badRow])).length ≠ 1
    ∧ totalPosts (runTrace envAll201 killNever 3 "t" [badRow]) = 0 := by
  decide

/-- Claim C1 (amended): for every record whose payload construction fails,
NO line is appended to either log (the build error is only printed to the
console and the record is skipped via `continue`), and zero POST calls are
made for that record. -/
theorem build_failure_skipped_silently (transport : Nat → AttemptResult)
    (maxR : Nat) (ts : String) (row : RawRecord)
    (hp : prepare_payload row = none) :
    processRecord transport maxR ts row = ([], RecordLog.skip)
    ∧ countPosts (processRecord transport maxR ts row).1 = 0
    ∧ linesOf (processRecord transport maxR ts row).2 = 0 := by
  have h := processRecord_build_none transport maxR ts row hp
  exact ⟨h, by rw [h]; rfl, by rw [h]; rfl⟩

/-- Witness for C1 (amended) at the concrete `badRow`. -/
theorem build_failure_skipped_silently_witness :
    processRecord transport201 3 "t" badRow = ([], RecordLog.skip)
    ∧ countPosts (processRecord transport201 3 "t" badRow).1 = 0
    ∧ linesOf (processRecord transport201 3 "t" badRow).2 = 0 := by
  exact build_failure_skipped_silently transport201 3 "t" badRow (by decide)

/-- Claim C2: a run processes records strictly in source order (the trace
indices are exactly `0, 1, 2, ...` and the processed rows are exactly a
prefix of the source rows, in order, so outcomes are logged in that same
order); every record contributes at most one log line; every record that
reaches the submission stage (its payload builds) contributes exactly one;
records skipped on cancellation contribute no trace entry at all. -/
theorem run_one_outcome_per_record_in_order (env : Nat → Nat → AttemptResult)
    (kill : Nat → Bool) (maxR : Nat) (ts : String) (rows : List RawRecord) :
    (runTrace env kill maxR ts rows).map TraceEntry.idx =
      List.range (runTrace env kill maxR ts rows).length
    ∧ (runTrace env kill maxR ts rows).map TraceEntry.row =
      rows.take (runTrace env kill maxR ts rows).length
    ∧ (runTrace env kill maxR ts rows).length ≤ rows.length
    ∧ (∀ e ∈ runTrace env kill maxR ts rows, linesOf e.out ≤ 1)
    ∧ (∀ e ∈ runTrace env kill maxR ts rows,
        (prepare_payload e.row).isSome = true → linesOf e.out = 1) := by
  refine ⟨?_, ?_, ?_, ?_, ?_⟩
  · rw [List.range_eq_range']
    exact runTraceAux_map_idx env kill maxR ts rows 0
  · exact runTraceAux_map_row env kill maxR ts rows 0
  · exact runTraceAux_length_le env kill maxR ts rows 0
  · intro e he
    have h := runTraceAux_mem env kill maxR ts rows 0 e he
    rw [h.2.2]
    exact linesOf_processRecord_le (env e.idx) maxR ts e.row
  · intro e he hsome
    have h := runTraceAux_mem env kill maxR ts rows 0 e he
    rw [h.2.2]
    obtain ⟨p, hp⟩ := Option.isSome_iff_exists.mp hsome
    exact linesOf_processRecord_some (env e.idx) maxR ts e.row p hp

/-- Witness for C2 on a concrete one-record run. -/
theorem run_one_outcome_per_record_in_order_witness :
    linesOf (RecordLog.success acmeSuccessLine) = 1 := by
  have h := run_one_outcome_per_record_in_order envAll201 killNever 3 "t"
    [acmeRow]
  exact h.2.2.2.2 acmeEntry (by decide) (by decide)

/-- Claim C3: if attempt `k` (0-based) of `make_request` receives an HTTP
response — all earlier attempts having failed with a timeout or transport
error — that response is returned as-is, whatever its status code, after
exactly `k + 1` POST calls. In particular a response on the first attempt
means exactly one POST call, and no received response is ever retried. -/
theorem received_response_never_retried (transport : Nat → AttemptResult)
    (maxR k : Nat) (r : Response) (hk : k < maxR)
    (hfail : ∀ j, j < k → failsAt transport j)
    (hr : transport k = .resp r) :
    (make_request transport maxR).result = .ok (some r)
    ∧ countPosts (make_request transport maxR).events = k + 1 := by
  unfold make_request
  rw [List.range_eq_range']
  have h := mrLoop_resp_at transport maxR k r hk hr maxR 0 (by omega)
    (by omega) (fun j hj1 hj2 => hfail j hj2)
  simpa using h

/-- Witness for C3: a 500 response on the first attempt is returned
immediately with exactly one POST call. -/
theorem received_response_never_retried_witness :
    (make_request transport500 3).result = .ok (some { status_code := 500 })
    ∧ countPosts (make_request transport500 3).events = 1 := by
  exact received_response_never_retried transport500 3 0
    { status_code := 500 } (by omega)
    (fun j hj => absurd hj (Nat.not_lt_zero j)) rfl

/-- Claim C4: when every attempt times out, `make_request` performs exactly
`maxAttempts` POST calls with exactly one 1-unit sleep between consecutive
attempts and none after the last (event pattern POST, sleep 1, POST,
sleep 1, ..., POST), re-raises the final attempt's timeout, and the driver
then logs exactly that error as a failure line. -/
theorem all_timeouts_make_maxattempts_posts (transport : Nat → AttemptResult)
    (maxR : Nat) (ts : String) (row : RawRecord) (p : Payload)
    (h1 : 1 ≤ maxR) (ht : ∀ j, transport j = .timeout)
    (hp : prepare_payload row = some p) :
    (make_request transport maxR).events =
      (List.replicate (maxR - 1) [Event.post, Event.sleep 1]).flatten
        ++ [Event.post]
    ∧ (make_request transport maxR).result = .error .timeout
    ∧ countPosts (make_request transport maxR).events = maxR
    ∧ (processRecord transport maxR ts row).2 =
        .failure ("[" ++ ts ++ "] Falha - Dados: " ++ payloadJson p
          ++ " - Erro: " ++ "Timeout na requisição" ++ "\n") := by
  have hm : make_request transport maxR =
      { events := (List.replicate (maxR - 1) [Event.post, Event.sleep 1]).flatten
          ++ [Event.post],
        result := .error .timeout } := by
    unfold make_request
    rw [List.range_eq_range']
    exact mrLoop_all_timeout transport maxR ht maxR 0 h1 (by omega)
  refine ⟨by rw [hm], by rw [hm], ?_, ?_⟩
  · rw [hm]
    have hc := countPosts_timeout_pattern (maxR - 1)
    rw [hc]
    omega
  · rw [processRecord_some transport maxR ts row p hp]
    have hres : (make_request transport maxR).result = .error .timeout := by
      rw [hm]
    rw [hres]
    dsimp only
    rw [log_result_failure_format ts p "Timeout na requisição"]

/-- Witness for C4 at `maxAttempts = 3` on the Acme row. -/
theorem all_timeouts_make_maxattempts_posts_witness :
    (make_request transportTimeout 3).events =
      (List.replicate 2 [Event.post, Event.sleep 1]).flatten ++ [Event.post]
    ∧ (make_request transportTimeout 3).result = .error .timeout
    ∧ countPosts (make_request transportTimeout 3).events = 3
    ∧ (processRecord transportTimeout 3 "t" acmeRow).2 =
        .failure ("[" ++ "t" ++ "] Falha - Dados: " ++ payloadJson acmePayload
          ++ " - Erro: " ++ "Timeout na requisição" ++ "\n") := by
  exact all_timeouts_make_maxattempts_posts transportTimeout 3 "t" acmeRow
    acmePayload (by omega) (fun j => rfl) (by decide)

/-- Claim C5: if the cancellation flag reads true at the boundary check of
record `j`, then no record at position `j` or later appears in the trace
(the driver stops at that record boundary, and those records are neither
processed nor logged), while every record that does appear was started with
the flag false and ran to completion: its events and its log outcome are
exactly those of its full, uninterrupted single-record processing,
retries included. -/
theorem cancellation_stops_at_record_boundary (env : Nat → Nat → AttemptResult)
    (kill : Nat → Bool) (maxR : Nat) (ts : String) (rows : List RawRecord)
    (j : Nat) (hkill : kill j = true) :
    (runTrace env kill maxR ts rows).length ≤ j
    ∧ ∀ e ∈ runTrace env kill maxR ts rows,
        kill e.idx = false
        ∧ e.events = (processRecord (env e.idx) maxR ts e.row).1
        ∧ e.out = (processRecord (env e.idx) maxR ts e.row).2 := by
  constructor
  · exact runTraceAux_kill env kill maxR ts rows 0 j (by simpa using hkill)
  · exact fun e he => runTraceAux_mem env kill maxR ts rows 0 e he

/-- Witness for C5: with the flag set from record 1 on, a two-record run
processes at most the first record. -/
theorem cancellation_stops_at_record_boundary_witness :
    (runTrace envAll201 killAfterOne 3 "t" [acmeRow, acmeRow]).length ≤ 1 := by
  exact (cancellation_stops_at_record_boundary envAll201 killAfterOne 3 "t"
    [acmeRow, acmeRow] 1 (by decide)).1

/-- Claim C6: for a record whose submission receives a response, a status
code in (200, 201) yields exactly one success-file line carrying that
status code (and nothing on the failure file), and any other received
status yields exactly one failure-file line whose error description is
`Status code: <code>`. -/
theorem received_status_classification (transport : Nat → AttemptResult)
    (maxR : Nat) (ts : String) (row : RawRecord) (p : Payload) (r : Response)
    (hp : prepare_payload row = some p)
    (hr : (make_request transport maxR).result = .ok (some r)) :
    (r.status_code = 200 ∨ r.status_code = 201 →
      (processRecord transport maxR ts row).2 =
        .success ("[" ++ ts ++ "] Sucesso - Dados: " ++ payloadJson p
          ++ " - Status: " ++ toString r.status_code ++ "\n"))
    ∧ (¬(r.status_code = 200 ∨ r.status_code = 201) →
      (processRecord transport maxR ts row).2 =
        .failure ("[" ++ ts ++ "] Falha - Dados: " ++ payloadJson p
          ++ " - Erro: " ++ ("Status code: " ++ toString r.status_code)
          ++ "\n")) := by
  rw [processRecord_some transport maxR ts row p hp, hr]
  dsimp only
  constructor
  · intro hsc
    rw [if_pos hsc]
    dsimp only
    rw [log_result_success_format ts p r
      (by rcases hsc with h | h <;> simp [respTruthy, h])]
  · intro hsc
    rw [if_neg hsc]
    dsimp only
    rw [log_result_failure_format ts p ("Status code: " ++ toString r.status_code)]

/-- Witness for C6: a 201 response on the Acme row logs one success line
with status 201. -/
theorem received_status_classification_witness :
    (processRecord transport201 3 "t" acmeRow).2 =
      .success ("[" ++ "t" ++ "] Sucesso - Dados: " ++ payloadJson acmePayload
        ++ " - Status: " ++ toString (201 : Nat) ++ "\n") := by
  exact (received_status_classification transport201 3 "t" acmeRow acmePayload
    { status_code := 201 } (by decide) rfl).1 (Or.inr rfl)

/-- Claim C7 counterexample: with `tag_ids` holding the empty string, the
built payload's `tag_ids` is `[""]` (Python `"".split(",") == [""]`), not
the empty sequence the claim requires for the empty string. -/
theorem tag_ids_empty_string_cex :
    (prepare_payload emptyTagRow).map Payload.tag_ids = some [""]
    ∧ (prepare_payload emptyTagRow).map Payload.tag_ids
        ≠ some ([] : List String) := by
  decide

/-- Claim C7 (amended): whenever the payload builds, `tag_ids` is the
comma-split of the `tag_ids` cell exactly when that cell holds a string —
including the empty string, whose split is the one-element sequence
containing the empty string — and the empty sequence when the cell is not
a string. -/
theorem tag_ids_split_when_string (row : RawRecord) (p : Payload) (c : Cell)
    (hp : prepare_payload row = some p) (hc : row.lookup "tag_ids" = some c) :
    p.tag_ids = specTagIdsRule c := by
  unfold prepare_payload at hp
  rw [hc] at hp
  rcases h1 : List.lookup "Name" row with _ | cName <;> rw [h1] at hp
  · simp at hp
  rcases h2 : List.lookup "Company Name" row with _ | cCompany <;> rw [h2] at hp
  · simp at hp
  rcases h3 : List.lookup "x_studio_tese" row with _ | cTese <;> rw [h3] at hp
  · simp at hp
  rcases h4 : List.lookup "user_id" row with _ | cUser <;> rw [h4] at hp
  · simp at hp
  rcases h5 : List.lookup "team_id" row with _ | cTeam <;> rw [h5] at hp
  · simp at hp
  rcases h6 : List.lookup "stage_id" row with _ | cStage <;> rw [h6] at hp
  · simp at hp
  dsimp only at hp
  rcases h7 : pyInt cUser with _ | nUser <;> rw [h7] at hp
  · simp at hp
  rcases h8 : pyInt cTeam with _ | nTeam <;> rw [h8] at hp
  · simp at hp
  rcases h9 : (if pyNotna cStage = true then pyInt cStage else some 10)
    with _ | nStage <;> rw [h9] at hp
  · simp at hp
  dsimp only at hp
  injection hp with hp
  subst hp
  cases c <;> rfl

/-- Witness for C7 (amended) at the Acme row, whose `tag_ids` cell holds
the string `a,b`. -/
theorem tag_ids_split_when_string_witness :
    acmePayload.tag_ids = specTagIdsRule (Cell.str "a,b") := by
  exact tag_ids_split_when_string acmeRow acmePayload (Cell.str "a,b")
    (by decide) (by decide)

/-- Claim C8: the spec's concrete scenario row builds exactly the expected
payload, with `tag_ids` split to `["a", "b"]` and `stage_id` defaulting to
10 because the source cell is missing (NaN). -/
theorem acme_row_builds_expected_payload :
    prepare_payload acmeRow =
      some { name := "Acme", contact_name := "Acme Inc", x_studio_tese := "x",
             user_id := 5, team_id := 2, tag_ids := ["a", "b"],
             stage_id := 10 } := by
  decide

/-- Claim C9 counterexample: the logger writes the Portuguese tags
`Sucesso` and `Falha`, not the words `Success` and `Failure` the claim
asserts: the concrete success line starts `[t] Sucesso - ...`, and no line
starts with `[t] Success` or `[t] Failure`. -/
theorem log_tag_is_portuguese_cex :
    log_result "t" acmePayload (some { status_code := 201 }) none =
      "[t] Sucesso - Dados: " ++ payloadJson acmePayload ++ " - Status: 201\n"
    ∧ List.isPrefixOf (String.data "[t] Success")
        (String.data (log_result "t" acmePayload
          (some { status_code := 201 }) none)) = false
    ∧ log_result "t" acmePayload none (some "Status code: 500") =
      "[t] Falha - Dados: " ++ payloadJson acmePayload
        ++ " - Erro: Status code: 500\n"
    ∧ List.isPrefixOf (String.data "[t] Failure")
        (String.data (log_result "t" acmePayload
          none (some "Status code: 500"))) = false := by
  decide

/-- Claim C9 (amended): every line a run appends matches
`[<timestamp>] <tag> - Dados: <payload-as-JSON> - <Status: code | Erro:
description>`, where the tag actually written is `Sucesso` for success
outcomes and `Falha` for failure outcomes (Portuguese, not
`Success`/`Failure`). -/
theorem log_line_format_portuguese_tags (env : Nat → Nat → AttemptResult)
    (kill : Nat → Bool) (maxR : Nat) (ts : String) (rows : List RawRecord) :
    ∀ e ∈ runTrace env kill maxR ts rows,
      (∀ l, e.out = RecordLog.success l → ∃ p code,
        l = "[" ++ ts ++ "] Sucesso - Dados: " ++ payloadJson p
          ++ " - Status: " ++ toString (code : Nat) ++ "\n")
      ∧ (∀ l, e.out = RecordLog.failure l → ∃ p d,
        l = "[" ++ ts ++ "] Falha - Dados: " ++ payloadJson p
          ++ " - Erro: " ++ d ++ "\n") := by
  intro e he
  have h := (runTraceAux_mem env kill maxR ts rows 0 e he).2.2
  rw [h]
  exact processRecord_line_format (env e.idx) maxR ts e.row

/-- Witness for C9 (amended) on the concrete Acme success line. -/
theorem log_line_format_portuguese_tags_witness :
    ∃ p code, acmeSuccessLine = "[" ++ "t" ++ "] Sucesso - Dados: "
      ++ payloadJson p ++ " - Status: " ++ toString (code : Nat) ++ "\n" := by
  have h := log_line_format_portuguese_tags envAll201 killNever 3 "t"
    [acmeRow] acmeEntry (by decide)
  exact h.1 acmeSuccessLine rfl

/-- Claim C10: calling `make_request` with `max_retries = 0` runs the loop
body zero times — no POST, no exception — and returns `None`; the caller
then evaluates `response.status_code` on that `None`, which raises
`AttributeError`, is swallowed by the generic handler, and is logged as an
unexpected-error failure line. -/
theorem zero_max_retries_returns_none (transport : Nat → AttemptResult)
    (ts : String) (row : RawRecord) (p : Payload)
    (hp : prepare_payload row = some p) :
    (make_request transport 0).events = []
    ∧ (make_request transport 0).result = Except.ok none
    ∧ processRecord transport 0 ts row =
        ([], RecordLog.failure ("[" ++ ts ++ "] Falha - Dados: "
          ++ payloadJson p ++ " - Erro: " ++ noneStatusCodeMsg ++ "\n")) := by
  refine ⟨rfl, rfl, ?_⟩
  rw [processRecord_some transport 0 ts row p hp]
  rw [show (make_request transport 0).result = Except.ok none from rfl]
  dsimp only
  rw [log_result_failure_format ts p noneStatusCodeMsg]
  rfl

/-- Witness for C10 on the Acme row. -/
theorem zero_max_retries_returns_none_witness :
    (make_request transport201 0).events = []
    ∧ (make_request transport201 0).result = Except.ok none
    ∧ processRecord transport201 0 "t" acmeRow =
        ([], RecordLog.failure ("[" ++ "t" ++ "] Falha - Dados: "
          ++ payloadJson acmePayload ++ " - Erro: " ++ noneStatusCodeMsg
          ++ "\n")) := by
  exact zero_max_retries_returns_none transport201 "t" acmeRow acmePayload
    (by decide)

end EnviarRequest

